import Mathlib

/-!
Verification of the medi-lens-vlm diagnostic pipeline.

This file gives a shallow embedding of the core of the repository:
the free-text extraction utilities of src/agents/image_analyzer.py and the
four-stage LangGraph pipeline of src/graph/langgraph_orchestration.py,
together with theorems settling the specification claims about them.

Text is modelled as List Char (Python str); Python floats appear as exact
rationals; the external inference gateway (llm.invoke) and the external
image decoder (PIL.Image.open) are oracle parameters, since their outcomes
are environment-determined.  Fallible Python code (statements that can
raise an uncaught exception) is modelled with Except.
-/

set_option autoImplicit false

namespace MediLens

/-! ## String primitives (Python str operations) -/

/-- Python whitespace characters recognised by str.strip and the regex
class for whitespace (ASCII range). -/
def isPySpace (c : Char) : Bool :=
  c = ' ' || c = '\t' || c = '\n' || c = '\r' || c = '\x0b' || c = '\x0c'

/-- Python str.strip(): remove leading and trailing whitespace. -/
def pyStrip (l : List Char) : List Char :=
  ((l.dropWhile isPySpace).reverse.dropWhile isPySpace).reverse

/-- Python str.upper() (ASCII; the texts involved are ASCII). -/
def toUpperList (l : List Char) : List Char := l.map Char.toUpper

/-- Python str.lower() (ASCII). -/
def toLowerList (l : List Char) : List Char := l.map Char.toLower

/-- Python str.split over a single separator char: text.split(sep)
keeps empty segments and yields one (possibly empty) final segment. -/
def splitOnChar (sep : Char) : List Char → List (List Char)
  | [] => [[]]
  | c :: cs =>
    match splitOnChar sep cs with
    | [] => [[c]]
    | l :: ls => if c = sep then [] :: l :: ls else (c :: l) :: ls

/-- text.split over newline, as used by the response parsers. -/
def splitLines (l : List Char) : List (List Char) := splitOnChar '\n' l

/-- Python substring containment: pat in s. -/
def isSubstr (pat : List Char) : List Char → Bool
  | [] => pat.isEmpty
  | c :: cs => pat.isPrefixOf (c :: cs) || isSubstr pat cs

/-- Numeric value of a run of decimal digit characters (int(...) in Python). -/
def natOfDigits (ds : List Char) : Nat :=
  ds.foldl (fun a c => a * 10 + (c.toNat - 48)) 0

/-! ## Section classifier: ImageAnalyzerAgent._parse_analysis_response -/

/-- The fixed set of section keys of the parsed-response dictionary. -/
inductive SectionKey where
  | visual_findings
  | anatomical_assessment
  | abnormal_findings
  | differential_diagnosis
  | technical_quality
  | recommendations
  deriving DecidableEq, Repr

/-- The section map built by the parser: one text buffer per section key. -/
structure Sections where
  visual_findings : List Char
  anatomical_assessment : List Char
  abnormal_findings : List Char
  differential_diagnosis : List Char
  technical_quality : List Char
  recommendations : List Char
  deriving DecidableEq, Repr

/-- The initial section map: every buffer empty. -/
def Sections.empty : Sections := ⟨[], [], [], [], [], []⟩

/-- Read one buffer of the section map. -/
def Sections.get (s : Sections) : SectionKey → List Char
  | .visual_findings => s.visual_findings
  | .anatomical_assessment => s.anatomical_assessment
  | .abnormal_findings => s.abnormal_findings
  | .differential_diagnosis => s.differential_diagnosis
  | .technical_quality => s.technical_quality
  | .recommendations => s.recommendations

/-- Append text to one buffer of the section map
(sections[current_section] += line + newline). -/
def Sections.add (s : Sections) (k : SectionKey) (txt : List Char) : Sections :=
  match k with
  | .visual_findings => { s with visual_findings := s.visual_findings ++ txt }
  | .anatomical_assessment =>
      { s with anatomical_assessment := s.anatomical_assessment ++ txt }
  | .abnormal_findings => { s with abnormal_findings := s.abnormal_findings ++ txt }
  | .differential_diagnosis =>
      { s with differential_diagnosis := s.differential_diagnosis ++ txt }
  | .technical_quality => { s with technical_quality := s.technical_quality ++ txt }
  | .recommendations => { s with recommendations := s.recommendations ++ txt }

/-- Strip every buffer (the final clean-up loop of the parser). -/
def Sections.stripAll (s : Sections) : Sections :=
  ⟨pyStrip s.visual_findings, pyStrip s.anatomical_assessment,
   pyStrip s.abnormal_findings, pyStrip s.differential_diagnosis,
   pyStrip s.technical_quality, pyStrip s.recommendations⟩

/-- The header test chain of _parse_analysis_response, applied to the
upper-cased stripped line: the if/elif cascade, first branch wins.
Returns the section the cursor switches to, or none for an ordinary line. -/
def headerSwitch (up : List Char) : Option SectionKey :=
  if isSubstr "VISUAL ANALYSIS".data up || isSubstr "FINDINGS".data up then
    some .visual_findings
  else if isSubstr "MORPHOLOGICAL".data up || isSubstr "ASSESSMENT".data up then
    some .anatomical_assessment
  else if isSubstr "DIFFERENTIAL".data up || isSubstr "DIAGNOSIS".data up then
    some .differential_diagnosis
  else if isSubstr "TECHNICAL".data up || isSubstr "QUALITY".data up then
    some .technical_quality
  else if isSubstr "RECOMMEND".data up || isSubstr "FOLLOW".data up then
    some .recommendations
  else
    none

/-- One iteration of the parser loop: strip the line, skip it when blank,
switch the cursor on a header line (discarding the line), otherwise append
line + newline to the current section. State: (section map, cursor). -/
def parseStep (acc : Sections × SectionKey) (rawLine : List Char) :
    Sections × SectionKey :=
  let line := pyStrip rawLine
  if line.isEmpty then acc
  else
    match headerSwitch (toUpperList line) with
    | some k => (acc.1, k)
    | none => (acc.1.add acc.2 (line ++ ['\n']), acc.2)

/-- ImageAnalyzerAgent._parse_analysis_response: split into lines, run the
cursor machine starting from the visual_findings default section, then
strip every accumulated buffer. -/
def parseAnalysisResponse (responseContent : List Char) : Sections :=
  ((splitLines responseContent).foldl parseStep
    (Sections.empty, SectionKey.visual_findings)).1.stripAll

/-! ## Confidence extractor: ImageAnalyzerAgent._extract_confidence_score

The three regex patterns are embedded as explicit leftmost-match scanners
over the lowercased text, with the backtracking order of the Python re
engine made explicit where it matters.
-/

/-- A character matched by the regex class of colon-or-whitespace
separators following the keyword. -/
def isSepChar (c : Char) : Bool := c = ':' || isPySpace c

/-- Leading run of decimal digits. -/
def digitRun (l : List Char) : List Char := l.takeWhile Char.isDigit

/-- Match attempt for the first two patterns at one position: after the
keyword, one-or-more colon/whitespace separators, then a digit run (the
capture group).  The trailing optional parts of the pattern always match
and do not affect the group.  Separator and digit classes are disjoint, so
greedy matching needs no backtracking. -/
def kwMatchAt (kw l : List Char) : Option Nat :=
  if kw.isPrefixOf l then
    let r := l.drop kw.length
    let seps := r.takeWhile isSepChar
    let r2 := r.drop seps.length
    if seps.isEmpty then none
    else
      match r2 with
      | [] => none
      | d :: _ => if d.isDigit then some (natOfDigits (digitRun r2)) else none
  else none

/-- re.search for the first two patterns: try each start position left to
right, returning the capture group of the leftmost successful match. -/
def kwSearch (kw : List Char) : List Char → Option Nat
  | [] => none
  | c :: cs =>
    match kwMatchAt kw (c :: cs) with
    | some n => some n
    | none => kwSearch kw cs

/-- Tail of the third pattern after the capture group: a lazy dot-star
(which cannot cross a newline), then the out-of/slash alternation, then
optional whitespace and the literal 10.  The whitespace run before 10 is
forced since 1 is not whitespace. -/
def p3Tail : List Char → Bool
  | [] => false
  | c :: cs =>
    (if ("out of".data).isPrefixOf (c :: cs) then
        ("10".data).isPrefixOf (((c :: cs).drop 6).dropWhile isPySpace)
      else if c = '/' then ("10".data).isPrefixOf (cs.dropWhile isPySpace)
      else false)
    || (if c = '\n' then false else p3Tail cs)

/-- Backtracking of the greedy digit group of the third pattern: try the
group length k from the full run down to one digit; digits given back are
consumed by the following lazy dot-star. -/
def p3TryK : Nat → List Char → List Char → Option Nat
  | 0, _, _ => none
  | k + 1, run, after =>
    if p3Tail (run.drop (k + 1) ++ after) then some (natOfDigits (run.take (k + 1)))
    else p3TryK k run after

/-- After the confidence keyword in the third pattern: the first lazy
dot-star advances over non-newline characters; at each position starting
with a digit the greedy digit group is tried (longest first). -/
def p3Digits : List Char → Option Nat
  | [] => none
  | c :: cs =>
    match
      (if c.isDigit then
        let run := digitRun (c :: cs)
        p3TryK run.length run ((c :: cs).drop run.length)
      else none) with
    | some n => some n
    | none => if c = '\n' then none else p3Digits cs

/-- re.search for the third pattern: leftmost start position whose
attempt succeeds; every attempt begins with the literal confidence. -/
def p3Search : List Char → Option Nat
  | [] => none
  | c :: cs =>
    match
      (if ("confidence".data).isPrefixOf (c :: cs) then p3Digits ((c :: cs).drop 10)
      else none) with
    | some n => some n
    | none => p3Search cs

/-- ImageAnalyzerAgent._extract_confidence_score: lowercase the text, try
the three patterns in priority order, normalise the first captured integer
to min(score / 10, 1.0); default 0.7 when nothing matches.  Python floats
are modelled as exact rationals. -/
def extractConfidenceScore (responseContent : List Char) : ℚ :=
  let low := toLowerList responseContent
  match kwSearch "confidence".data low with
  | some n => min ((n : ℚ) / 10) 1
  | none =>
    match kwSearch "certainty".data low with
    | some n => min ((n : ℚ) / 10) 1
    | none =>
      match p3Search low with
      | some n => min ((n : ℚ) / 10) 1
      | none => 7 / 10

/-! ## Vocabulary extractors: _extract_modality, _extract_anatomical_region -/

/-- The for-loop shared by the two vocabulary extractors: return the first
vocabulary term occurring as a substring of the lowercased text, else the
designated sentinel. -/
def firstVocab (vocab : List (List Char)) (low dflt : List Char) : List Char :=
  match vocab with
  | [] => dflt
  | m :: ms => if isSubstr m low then m else firstVocab ms low dflt

/-- The fixed ordered modality vocabulary. -/
def modalityVocab : List (List Char) :=
  ["x-ray".data, "ct".data, "mri".data, "ultrasound".data,
   "mammography".data, "pet".data, "nuclear".data]

/-- The fixed ordered anatomical-region vocabulary. -/
def regionVocab : List (List Char) :=
  ["chest".data, "abdomen".data, "pelvis".data, "head".data, "neck".data,
   "spine".data, "extremity".data, "heart".data, "lung".data]

/-- ImageAnalyzerAgent._extract_modality. -/
def extractModality (visualFindings : List Char) : List Char :=
  firstVocab modalityVocab (toLowerList visualFindings) "unknown".data

/-- ImageAnalyzerAgent._extract_anatomical_region. -/
def extractAnatomicalRegion (visualFindings : List Char) : List Char :=
  firstVocab regionVocab (toLowerList visualFindings) "unspecified".data

/-! ## Bullet extractors: _extract_key_findings, _extract_differentials

The module src/agents/image_analyzer.py never imports re at module scope:
the only import re statement is local to _extract_confidence_score, so the
global name re is unbound in every other method.  The first time either
bullet extractor reaches its re.sub call — i.e. on the first stripped line
that is non-empty and does not start with a hash character — the Python
interpreter raises NameError.  Both extractors are therefore embedded as
Except-valued functions.
-/

/-- An uncaught Python exception escaping a modelled function. -/
inductive PyErr where
  /-- ValueError raised by analyze_image on failed image validation. -/
  | valueError
  /-- NameError raised at an re.sub call because re is not a module-level
  name in image_analyzer.py. -/
  | nameError
  deriving DecidableEq, Repr

/-- A stripped line reaches the re.sub call of the bullet extractors
exactly when it is non-empty and does not start with a hash. -/
def reachesReSub (rawLine : List Char) : Bool :=
  let line := pyStrip rawLine
  !line.isEmpty && !(line.head? = some '#')

/-- ImageAnalyzerAgent._extract_key_findings: empty input short-circuits
to an empty list before any line processing; otherwise the loop raises
NameError at the first substantive line (re.sub with re unbound); if no
line is substantive, the accumulated list stays empty and findings[:5]
returns the empty list. -/
def extractKeyFindings (abnormalFindings : List Char) :
    Except PyErr (List (List Char)) :=
  if abnormalFindings.isEmpty then .ok []
  else if (splitLines abnormalFindings).any reachesReSub then .error .nameError
  else .ok []

/-- ImageAnalyzerAgent._extract_differentials: same structure as
_extract_key_findings (NameError at the first substantive line; otherwise
the list stays empty and differentials[:3] returns the empty list). -/
def extractDifferentials (differentialText : List Char) :
    Except PyErr (List (List Char)) :=
  if differentialText.isEmpty then .ok []
  else if (splitLines differentialText).any reachesReSub then .error .nameError
  else .ok []

/-! ## Normal-findings extractor and quality classifier -/

/-- Keyword set of _extract_normal_findings. -/
def normalKeywords : List (List Char) :=
  ["normal".data, "unremarkable".data, "within normal limits".data,
   "no evidence".data]

/-- ImageAnalyzerAgent._extract_normal_findings: every line whose
lowercased form contains a normal keyword, stripped, in order. -/
def extractNormalFindings (visualFindings : List Char) : List (List Char) :=
  ((splitLines visualFindings).filter
    (fun line => normalKeywords.any (fun kw => isSubstr kw (toLowerList line)))).map
      pyStrip

/-- Ordered quality levels and keyword sets of _assess_image_quality
(dict iteration order is insertion order). -/
def qualityIndicators : List (List Char × List (List Char)) :=
  [("excellent".data, ["excellent".data, "optimal".data, "high quality".data]),
   ("good".data, ["good".data, "adequate".data, "satisfactory".data]),
   ("fair".data, ["fair".data, "moderate".data, "acceptable".data]),
   ("poor".data, ["poor".data, "suboptimal".data, "limited".data, "degraded".data])]

/-- ImageAnalyzerAgent._assess_image_quality. -/
def assessImageQuality (technicalQuality : List Char) : List Char :=
  let low := toLowerList technicalQuality
  match qualityIndicators.find? (fun p => p.2.any (fun kw => isSubstr kw low)) with
  | some p => p.1
  | none => "not assessed".data

/-! ## Image validation: ImageAnalyzerAgent.validate_medical_image

PIL.Image.open is external; its outcome for a given path is modelled as
an Option PILImage (none when opening/decoding raises, which the source
catches and turns into False).
-/

/-- Decoded-image formats that matter to the claims (PIL decodes many
more; pgm is a grayscale-only niche format PIL decodes). -/
inductive ImgFormat where
  | jpeg
  | png
  | bmp
  | tiff
  | gif
  | pgm
  deriving DecidableEq, Repr

/-- The decoded image as the source observes it: img.size and format. -/
structure PILImage where
  width : Nat
  height : Nat
  format : ImgFormat
  deriving DecidableEq, Repr

/-- ImageAnalyzerAgent.validate_medical_image applied to the decode
outcome: False when decoding raised, False when either dimension is below
100 or above 4096, else True.  The source inspects only img.size; the
format is never consulted. -/
def validateMedicalImage (img : Option PILImage) : Bool :=
  match img with
  | none => false
  | some i =>
    if i.width < 100 || i.height < 100 then false
    else if i.width > 4096 || i.height > 4096 then false
    else true

/-! ## Findings model and analysis stage -/

/-- The structured findings dictionary built by get_structured_findings. -/
structure Findings where
  modality : List Char
  anatomical_region : List Char
  key_findings : List (List Char)
  normal_structures : List (List Char)
  image_quality : List Char
  confidence : ℚ
  differential_diagnoses : List (List Char)
  deriving DecidableEq, Repr

/-- The value stored under image_findings by the analysis node: either
the structured findings dictionary, or the error dictionary returned by
get_structured_findings when the analysis status is not success. -/
inductive FindingsDict where
  /-- The error dictionary (analysis failed). -/
  | failed
  /-- The structured findings dictionary. -/
  | ok (f : Findings)
  deriving DecidableEq, Repr

/-- Result dictionary of analyze_image.  The bookkeeping entries
(image_path, clinical_query) are carried verbatim in the source and read
by no claim, so they are not repeated here. -/
inductive AnalysisResult where
  /-- Success dictionary: parsed sections plus confidence score. -/
  | success (analysis : Sections) (confidence : ℚ)
  /-- Error dictionary with str(e) of the caught exception. -/
  | failure (error : List Char)
  deriving DecidableEq, Repr

/-- ImageAnalyzerAgent.analyze_image.  The image decoding outcome (img)
and the gateway call outcome (resp: response content, or the error
message of the raised exception) are oracle parameters.  Validation
failure raises ValueError before the gateway is consulted; encode_image
reads the same file PIL just decoded and is modelled as succeeding.  The
try block converts any gateway error into the error dictionary; parsing
and confidence extraction inside the try block are total. -/
def analyzeImage (img : Option PILImage) (resp : Except (List Char) (List Char)) :
    Except PyErr AnalysisResult :=
  if validateMedicalImage img = false then .error .valueError
  else
    match resp with
    | .ok content =>
      .ok (.success (parseAnalysisResponse content) (extractConfidenceScore content))
    | .error e => .ok (.failure e)

/-- ImageAnalyzerAgent.get_structured_findings: the error dictionary when
the analysis status is not success; otherwise the findings dictionary,
whose entries are evaluated in literal order — _extract_key_findings runs
before _extract_differentials, and either can raise NameError. -/
def getStructuredFindings (result : AnalysisResult) : Except PyErr FindingsDict :=
  match result with
  | .failure _ => .ok .failed
  | .success analysis conf =>
    match extractKeyFindings analysis.abnormal_findings with
    | .error e => .error e
    | .ok keys =>
      match extractDifferentials analysis.differential_diagnosis with
      | .error e => .error e
      | .ok diffs =>
        .ok (.ok
          { modality := extractModality analysis.visual_findings
            anatomical_region := extractAnatomicalRegion analysis.visual_findings
            key_findings := keys
            normal_structures := extractNormalFindings analysis.visual_findings
            image_quality := assessImageQuality analysis.technical_quality
            confidence := conf
            differential_diagnoses := diffs })

/-! ## Downstream agents

MedicalReasonerAgent.reason_over_findings, RiskCriticAgent.critique_diagnosis
and ReportWriterAgent.compile_report share one shape: build a prompt (pure
string formatting, total), invoke the gateway inside a try block, and
return either a success dictionary carrying response.content.strip() or an
error dictionary carrying str(e).  The prompt text feeds only the oracle
gateway, so the stored state fields depend on the gateway outcome alone.
-/

/-- Result dictionary of a downstream agent call: the stage text on
success, str(e) on a caught gateway error. -/
inductive StageResult where
  | success (text : List Char)
  | failure (error : List Char)
  deriving DecidableEq, Repr

/-- The shared try/except body of the three downstream agents. -/
def stageCall (resp : Except (List Char) (List Char)) : StageResult :=
  match resp with
  | .ok content => .success (pyStrip content)
  | .error e => .failure e

/-! ## Pipeline state and nodes: src/graph/langgraph_orchestration.py -/

/-- MediLensState: the dict threaded through the stages.  A field is none
when the key is absent; every read in the source goes through
state.get(key, default). -/
structure PipelineState where
  image_path : Option (List Char)
  clinical_query : Option (List Char)
  retrieved_context : Option (List Char)
  image_findings : Option FindingsDict
  reasoning : Option (List Char)
  critique : Option (List Char)
  final_report : Option (List Char)
  deriving DecidableEq, Repr

/-- The state with no keys set. -/
def PipelineState.empty : PipelineState := ⟨none, none, none, none, none, none, none⟩

/-- The initial state built by run_medilens_pipeline. -/
def initState (imagePath clinicalQuery context : List Char) : PipelineState :=
  { PipelineState.empty with
    image_path := some imagePath
    clinical_query := some clinicalQuery
    retrieved_context := some context }

/-- image_analysis_node: read image_path and clinical_query with empty
defaults, run analyze_image then get_structured_findings, store the result
under image_findings.  An exception from either call (ValueError from
validation, NameError from the bullet extractors) escapes the node and
aborts the graph run.  The decode oracle maps the path read from the state
to the PIL outcome. -/
def imageAnalysisNode (decode : List Char → Option PILImage)
    (resp : Except (List Char) (List Char)) (state : PipelineState) :
    Except PyErr PipelineState :=
  match analyzeImage (decode (state.image_path.getD [])) resp with
  | .error e => .error e
  | .ok result =>
    match getStructuredFindings result with
    | .error e => .error e
    | .ok findings => .ok { state with image_findings := some findings }

/-- reasoning_node: result.get of diagnostic_reasoning on success, else of
error; stored under reasoning.  Total: the agent catches every gateway
exception. -/
def reasoningNode (resp : Except (List Char) (List Char)) (state : PipelineState) :
    PipelineState :=
  let reasoning :=
    match stageCall resp with
    | .success t => t
    | .failure e => e
  { state with reasoning := some reasoning }

/-- critique_node: same policy, stored under critique. -/
def critiqueNode (resp : Except (List Char) (List Char)) (state : PipelineState) :
    PipelineState :=
  let critique :=
    match stageCall resp with
    | .success t => t
    | .failure e => e
  { state with critique := some critique }

/-- report_writer_node: same policy, stored under final_report. -/
def reportWriterNode (resp : Except (List Char) (List Char)) (state : PipelineState) :
    PipelineState :=
  let report :=
    match stageCall resp with
    | .success t => t
    | .failure e => e
  { state with final_report := some report }

/-- run_medilens_pipeline over the compiled linear graph
ImageAnalysis → Reasoning → Critique → Report: build the initial state and
run the four nodes in order; an exception escaping the analysis node
aborts the run, the other three nodes are total. -/
def runPipeline (decode : List Char → Option PILImage)
    (analysisResp reasonResp critiqueResp reportResp : Except (List Char) (List Char))
    (imagePath clinicalQuery context : List Char) : Except PyErr PipelineState :=
  match imageAnalysisNode decode analysisResp (initState imagePath clinicalQuery context) with
  | .error e => .error e
  | .ok s1 => .ok (reportWriterNode reportResp (critiqueNode critiqueResp
      (reasoningNode reasonResp s1)))

/-! ## Spec-side definitions

Definitions written from the specification text, used to state refinement
and counterexample theorems against the source embedding above.
-/

/-- The spec's ordered header-marker table (§4.1): marker token paired
with the section it selects, in the fixed priority order. -/
def specHeaderMarkers : List (List Char × SectionKey) :=
  [("VISUAL ANALYSIS".data, .visual_findings),
   ("FINDINGS".data, .visual_findings),
   ("MORPHOLOGICAL".data, .anatomical_assessment),
   ("ASSESSMENT".data, .anatomical_assessment),
   ("DIFFERENTIAL".data, .differential_diagnosis),
   ("DIAGNOSIS".data, .differential_diagnosis),
   ("TECHNICAL".data, .technical_quality),
   ("QUALITY".data, .technical_quality),
   ("RECOMMEND".data, .recommendations),
   ("FOLLOW".data, .recommendations)]

/-- First marker of the ordered table contained in the upper-cased line
wins (spec §4.1 tie-break rule). -/
def lookupMarker (table : List (List Char × SectionKey)) (up : List Char) :
    Option SectionKey :=
  match table with
  | [] => none
  | (m, k) :: rest => if isSubstr m up then some k else lookupMarker rest up

/-- Header classification as the spec words it. -/
def specHeaderSwitch (up : List Char) : Option SectionKey :=
  lookupMarker specHeaderMarkers up

/-- One line of the spec's section classifier: skip blank lines, switch
the cursor and discard the line on a header marker, else append the line
plus newline to the current section. -/
def specParseStep (acc : Sections × SectionKey) (rawLine : List Char) :
    Sections × SectionKey :=
  let line := pyStrip rawLine
  if line.isEmpty then acc
  else
    match specHeaderSwitch (toUpperList line) with
    | some k => (acc.1, k)
    | none => (acc.1.add acc.2 (line ++ ['\n']), acc.2)

/-- The section classifier as the spec words it: line-by-line cursor
machine starting in the default visual-findings section, buffers trimmed
at the end. -/
def specParseAnalysisResponse (responseContent : List Char) : Sections :=
  ((splitLines responseContent).foldl specParseStep
    (Sections.empty, SectionKey.visual_findings)).1.stripAll

/-- The validation predicate as claim C7 states it: decodable, both
dimensions within [100, 4096], and format inside the small allowed set.
The spec admits at minimum JPEG and PNG and requires grayscale-only niche
formats (such as pgm) to fail, so pgm lies outside every admissible
allowed set; the minimal set is used here. -/
def validateMedicalImageClaim (img : Option PILImage) : Bool :=
  match img with
  | none => false
  | some i =>
    if 100 ≤ i.width ∧ i.width ≤ 4096 ∧ 100 ≤ i.height ∧ i.height ≤ 4096 ∧
        (i.format = .jpeg ∨ i.format = .png) then true else false

/-- The text a downstream node stores for a given gateway outcome: the
stripped response on success, the error message on a caught failure. -/
def stageText (resp : Except (List Char) (List Char)) : List Char :=
  match stageCall resp with
  | .success t => t
  | .failure e => e

/-- The structured findings produced by an analysis whose gateway
returned the empty response: every extractor on empty section text. -/
def witnessFindings : Findings :=
  { modality := extractModality []
    anatomical_region := extractAnatomicalRegion []
    key_findings := []
    normal_structures := extractNormalFindings []
    image_quality := assessImageQuality []
    confidence := extractConfidenceScore []
    differential_diagnoses := [] }

/-! ## Helper lemmas -/

/-- A disjunctive guard splits into a two-step cascade with equal branches. -/
theorem if_or_split {α : Type} (a b : Bool) (x y : α) :
    (if a || b then x else y) = if a then x else if b then x else y := by
  cases a <;> cases b <;> simp

/-- The vocabulary loop agrees with the first-match-or-default reading. -/
theorem firstVocab_eq_find (vocab : List (List Char)) (low d : List Char) :
    firstVocab vocab low d = (vocab.find? (fun m => isSubstr m low)).getD d := by
  induction vocab with
  | nil => rfl
  | cons m ms ih =>
    cases h : isSubstr m low <;> simp [firstVocab, List.find?, h, ih]

/-- The vocabulary loop returns a vocabulary term or the default. -/
theorem firstVocab_mem (vocab : List (List Char)) (low d : List Char) :
    firstVocab vocab low d ∈ vocab ∨ firstVocab vocab low d = d := by
  induction vocab with
  | nil => exact Or.inr rfl
  | cons m ms ih =>
    by_cases h : isSubstr m low = true
    · exact Or.inl (by simp [firstVocab, h])
    · rcases ih with hm | hd
      · exact Or.inl (by simp [firstVocab, h]; exact Or.inr hm)
      · exact Or.inr (by simp [firstVocab, h, hd])

/-- Every branch of the confidence extractor lies between 0 and 1. -/
theorem confidence_branch_bounds (n : Nat) :
    (0 : ℚ) ≤ min ((n : ℚ) / 10) 1 ∧ min ((n : ℚ) / 10) 1 ≤ 1 :=
  ⟨le_min (by positivity) zero_le_one, min_le_right _ _⟩

/-! ## Claim theorems -/

/-- Claim C3: the claim that every extraction utility terminates normally
without raising is wrong on the code: both bullet extractors evaluate
re.sub on any substantive line while the module never imports re at module
scope, so each raises NameError on such input. -/
theorem bullet_extractors_raise_nameError :
    extractKeyFindings "pleural effusion noted".data = .error PyErr.nameError ∧
    extractDifferentials "1. Left lower lobe consolidation".data =
      .error PyErr.nameError := by
  constructor <;> rfl

/-- Claim C8: the claim that the differential extractor returns at most
three items of length at least ten is wrong on the code: the extractor
never reaches its filtering logic on a substantive block, because the
re.sub call raises NameError first (re is not a module-level name). -/
theorem differential_extractor_raises_nameError :
    extractDifferentials "- Bacterial pneumonia suspected".data =
      .error PyErr.nameError := by
  rfl

/-- Claim C4: the confidence extractor maps the spec's two examples to
0.8 and to the 0.7 default, and every result lies in the interval [0, 1]
(each match is normalised as min of score over ten and one). -/
theorem confidence_extraction_examples_and_range :
    extractConfidenceScore "Confidence: 8/10 ...".data = 8 / 10 ∧
    extractConfidenceScore "no score mentioned".data = 7 / 10 ∧
    ∀ s, 0 ≤ extractConfidenceScore s ∧ extractConfidenceScore s ≤ 1 := by
  refine ⟨?_, ?_, fun s => ?_⟩
  · have h : kwSearch "confidence".data
        (toLowerList "Confidence: 8/10 ...".data) = some 8 := by decide
    simp only [extractConfidenceScore, h]
    exact min_eq_left (by norm_num)
  · have h1 : kwSearch "confidence".data
        (toLowerList "no score mentioned".data) = none := by decide
    have h2 : kwSearch "certainty".data
        (toLowerList "no score mentioned".data) = none := by decide
    have h3 : p3Search (toLowerList "no score mentioned".data) = none := by decide
    simp only [extractConfidenceScore, h1, h2, h3]
  rcases h1 : kwSearch "confidence".data (toLowerList s) with _ | n
  · rcases h2 : kwSearch "certainty".data (toLowerList s) with _ | n
    · rcases h3 : p3Search (toLowerList s) with _ | n
      · simp only [extractConfidenceScore, h1, h2, h3]
        norm_num
      · simp only [extractConfidenceScore, h1, h2, h3]
        exact confidence_branch_bounds n
    · simp only [extractConfidenceScore, h1, h2]
      exact confidence_branch_bounds n
  · simp only [extractConfidenceScore, h1]
    exact confidence_branch_bounds n

/-- Claim C6: each vocabulary extractor returns the first term of its
fixed ordered vocabulary occurring as a substring of the lowercased text
(first match wins), or the sentinel when none occurs, and the result is
always a member of the closed enumeration. -/
theorem modality_region_first_vocab_match :
    (∀ s, extractModality s =
        (modalityVocab.find? (fun m => isSubstr m (toLowerList s))).getD
          "unknown".data ∧
      extractModality s ∈ modalityVocab ++ ["unknown".data]) ∧
    (∀ s, extractAnatomicalRegion s =
        (regionVocab.find? (fun m => isSubstr m (toLowerList s))).getD
          "unspecified".data ∧
      extractAnatomicalRegion s ∈ regionVocab ++ ["unspecified".data]) := by
  constructor
  · intro s
    refine ⟨firstVocab_eq_find _ _ _, ?_⟩
    rcases firstVocab_mem modalityVocab (toLowerList s) "unknown".data with hm | hd
    · exact List.mem_append_left _ hm
    · exact List.mem_append_right _ (by simp [extractModality, hd])
  · intro s
    refine ⟨firstVocab_eq_find _ _ _, ?_⟩
    rcases firstVocab_mem regionVocab (toLowerList s) "unspecified".data with hm | hd
    · exact List.mem_append_left _ hm
    · exact List.mem_append_right _ (by simp [extractAnatomicalRegion, hd])

/-- Claim C7 counterexample: a 512 by 512 decodable image in the
grayscale-only niche pgm format passes the source's validation although
the claim requires every disallowed format to fail. -/
theorem validation_passes_disallowed_format :
    validateMedicalImage (some ⟨512, 512, ImgFormat.pgm⟩) = true ∧
    validateMedicalImageClaim (some ⟨512, 512, ImgFormat.pgm⟩) = false := by
  decide

/-- Claim C7 amended: validation passes exactly the decodable images
whose width and height both lie in [100, 4096]; the image format is never
consulted. -/
theorem validation_checks_dimensions_only :
    (∀ w h f, validateMedicalImage (some ⟨w, h, f⟩) =
      decide (100 ≤ w ∧ w ≤ 4096 ∧ 100 ≤ h ∧ h ≤ 4096)) ∧
    validateMedicalImage none = false := by
  refine ⟨fun w h f => ?_, rfl⟩
  simp only [validateMedicalImage]
  split
  · next hc =>
    simp only [Bool.or_eq_true, decide_eq_true_eq] at hc
    symm
    simp only [decide_eq_false_iff_not]
    omega
  · next hc =>
    simp only [Bool.or_eq_true, decide_eq_true_eq] at hc
    push_neg at hc
    split
    · next hc2 =>
      simp only [Bool.or_eq_true, decide_eq_true_eq] at hc2
      symm
      simp only [decide_eq_false_iff_not]
      omega
    · next hc2 =>
      simp only [Bool.or_eq_true, decide_eq_true_eq] at hc2
      push_neg at hc2
      symm
      simp only [decide_eq_true_eq]
      omega

/-- The source's if/elif header cascade computes the first-match lookup
over the spec's ordered marker table. -/
theorem headerSwitch_eq_spec (up : List Char) :
    headerSwitch up = specHeaderSwitch up := by
  unfold headerSwitch specHeaderSwitch specHeaderMarkers
  rw [if_or_split, if_or_split, if_or_split, if_or_split, if_or_split]
  simp only [lookupMarker]

/-- The two parser step functions agree. -/
theorem parseStep_eq_spec : parseStep = specParseStep := by
  funext acc rawLine
  simp only [parseStep, specParseStep, headerSwitch_eq_spec]

/-- Claim C5: the section classifier is the cursor machine the spec
describes (default visual-findings section, ordered header markers with
first match winning, header lines discarded, other non-blank lines
appended with a newline), and on the spec's example the two lines after a
differential-diagnosis header land in the differential section while the
default section stays empty. -/
theorem section_classifier_matches_spec :
    (∀ resp, parseAnalysisResponse resp = specParseAnalysisResponse resp) ∧
    (parseAnalysisResponse
        "DIFFERENTIAL DIAGNOSIS\nPneumonia likely\nConsider TB next".data).differential_diagnosis =
      "Pneumonia likely\nConsider TB next".data ∧
    (parseAnalysisResponse
        "DIFFERENTIAL DIAGNOSIS\nPneumonia likely\nConsider TB next".data).visual_findings =
      [] := by
  refine ⟨fun resp => ?_, by decide, by decide⟩
  unfold parseAnalysisResponse specParseAnalysisResponse
  rw [parseStep_eq_spec]

/-- No header marker of the cascade selects the abnormal-findings
section. -/
theorem headerSwitch_ne_abnormal (up : List Char) :
    headerSwitch up ≠ some SectionKey.abnormal_findings := by
  unfold headerSwitch
  split_ifs <;> decide

/-- Appending to a section other than abnormal findings leaves the
abnormal-findings buffer unchanged. -/
theorem add_preserves_abnormal (s : Sections) (k : SectionKey) (txt : List Char)
    (h : k ≠ SectionKey.abnormal_findings) :
    (s.add k txt).abnormal_findings = s.abnormal_findings := by
  cases k <;> simp_all [Sections.add]

/-- One parser step preserves the invariant that the abnormal-findings
buffer is empty and the cursor does not point at it. -/
theorem parseStep_abnormal_invariant (acc : Sections × SectionKey)
    (rawLine : List Char) (h1 : acc.1.abnormal_findings = [])
    (h2 : acc.2 ≠ SectionKey.abnormal_findings) :
    (parseStep acc rawLine).1.abnormal_findings = [] ∧
    (parseStep acc rawLine).2 ≠ SectionKey.abnormal_findings := by
  unfold parseStep
  cases hb : (pyStrip rawLine).isEmpty with
  | true =>
    simp only [hb, if_true]
    exact ⟨h1, h2⟩
  | false =>
    cases hh : headerSwitch (toUpperList (pyStrip rawLine)) with
    | none =>
      simp only [hb, Bool.false_eq_true, if_false, hh]
      exact ⟨(add_preserves_abnormal _ _ _ h2).trans h1, h2⟩
    | some k =>
      simp only [hb, Bool.false_eq_true, if_false, hh]
      refine ⟨h1, fun hk =>
        headerSwitch_ne_abnormal (toUpperList (pyStrip rawLine)) ?_⟩
      rw [hh]
      exact congrArg some hk

/-- The parser fold preserves the abnormal-findings invariant. -/
theorem parse_fold_abnormal (lines : List (List Char)) (acc : Sections × SectionKey)
    (h1 : acc.1.abnormal_findings = []) (h2 : acc.2 ≠ SectionKey.abnormal_findings) :
    (lines.foldl parseStep acc).1.abnormal_findings = [] := by
  induction lines generalizing acc with
  | nil => exact h1
  | cons l ls ih =>
    have hstep := parseStep_abnormal_invariant acc l h1 h2
    simpa using ih (parseStep acc l) hstep.1 hstep.2

/-- Claim C10: the parser never routes text to the abnormal-findings
section, and consequently the structured findings of every successful
analysis carry an empty key-findings list. -/
theorem abnormal_section_empty_no_key_findings :
    (∀ resp, (parseAnalysisResponse resp).abnormal_findings = []) ∧
    (∀ img resp r f, analyzeImage img resp = .ok r →
      getStructuredFindings r = .ok (.ok f) → f.key_findings = []) := by
  have habn : ∀ resp, (parseAnalysisResponse resp).abnormal_findings = [] := by
    intro resp
    unfold parseAnalysisResponse
    have h := parse_fold_abnormal (splitLines resp)
      (Sections.empty, SectionKey.visual_findings) rfl (by decide)
    simp [Sections.stripAll, h, pyStrip]
  refine ⟨habn, fun img resp r f ha hg => ?_⟩
  cases hv : validateMedicalImage img with
  | false => simp [analyzeImage, hv] at ha
  | true =>
    cases resp with
    | error e =>
      simp [analyzeImage, hv] at ha
      rw [← ha] at hg
      simp [getStructuredFindings] at hg
    | ok content =>
      simp [analyzeImage, hv] at ha
      rw [← ha] at hg
      simp only [getStructuredFindings] at hg
      rw [habn content] at hg
      have hkey : extractKeyFindings [] = .ok [] := rfl
      rw [hkey] at hg
      cases hd : extractDifferentials
          (parseAnalysisResponse content).differential_diagnosis with
      | error e => rw [hd] at hg; simp at hg
      | ok diffs =>
        rw [hd] at hg
        simp only [Except.ok.injEq, FindingsDict.ok.injEq] at hg
        rw [← hg]

/-- Claim C1: once the analysis stage has completed, the pipeline always
runs through the remaining stages and returns a state whose reasoning,
critique and final-report fields each hold the stage's stored text — the
stripped response on gateway success, the error message verbatim on
gateway failure — so a failing downstream inference call never aborts the
run and a final report value is still produced. -/
theorem gateway_errors_degrade_not_abort :
    ∀ (decode : List Char → Option PILImage)
      (aResp rResp cResp repResp : Except (List Char) (List Char))
      (path q ctx : List Char) (s1 : PipelineState),
      imageAnalysisNode decode aResp (initState path q ctx) = .ok s1 →
      runPipeline decode aResp rResp cResp repResp path q ctx =
        .ok { s1 with
              reasoning := some (stageText rResp)
              critique := some (stageText cResp)
              final_report := some (stageText repResp) } ∧
      (∀ e, rResp = .error e → stageText rResp = e) ∧
      (∀ e, cResp = .error e → stageText cResp = e) ∧
      (∀ e, repResp = .error e → stageText repResp = e) ∧
      (∀ rep, repResp = .ok rep → stageText repResp = pyStrip rep) := by
  intro decode aResp rResp cResp repResp path q ctx s1 h
  refine ⟨?_, fun e he => by rw [he]; rfl, fun e he => by rw [he]; rfl,
    fun e he => by rw [he]; rfl, fun rep hr => by rw [hr]; rfl⟩
  unfold runPipeline
  rw [h]
  rfl

/-- Claim C1 witness: a concrete run in which only the reasoning
gateway call fails still completes, stores the error message under
reasoning, and returns the non-empty stripped report text. -/
theorem gateway_errors_degrade_not_abort_witness :
    runPipeline (fun _ => some ⟨200, 200, ImgFormat.jpeg⟩) (.ok [])
        (.error "Gateway timeout".data) (.ok "All good".data)
        (.ok "Final report text".data) "scan.jpg".data [] [] =
      .ok { image_path := some "scan.jpg".data
            clinical_query := some []
            retrieved_context := some []
            image_findings := some (.ok witnessFindings)
            reasoning := some "Gateway timeout".data
            critique := some "All good".data
            final_report := some "Final report text".data } ∧
    "Final report text".data ≠ ([] : List Char) := by
  have h := gateway_errors_degrade_not_abort (fun _ => some ⟨200, 200, ImgFormat.jpeg⟩)
    (.ok []) (.error "Gateway timeout".data) (.ok "All good".data)
    (.ok "Final report text".data) "scan.jpg".data [] []
    { initState "scan.jpg".data [] [] with image_findings := some (.ok witnessFindings) }
    rfl
  refine ⟨?_, by decide⟩
  rw [h.1]
  rfl

/-- Claim C2: the claim that failed image validation is the only
condition aborting a run is wrong on the code: with a valid 512 by 512
JPEG image, a run whose analysis response carries one substantive
differential line aborts inside stage-1 findings extraction with
NameError (re is not a module-level name), producing no final report. -/
theorem pipeline_aborts_beyond_validation :
    runPipeline (fun _ => some ⟨512, 512, ImgFormat.jpeg⟩)
        (.ok "DIFFERENTIAL DIAGNOSIS:\n1. Community acquired pneumonia".data)
        (.ok "reasoning text".data) (.ok "critique text".data)
        (.ok "report text".data) "img.jpg".data [] [] =
      .error PyErr.nameError ∧
    validateMedicalImage (some ⟨512, 512, ImgFormat.jpeg⟩) = true := by
  constructor <;> rfl

/-- Claim C9 counterexample: the analysis stage applied to a state with
no image path substitutes the empty path, fails validation, and raises
instead of completing — refuting the claim that every stage completes
without crashing on missing input fields. -/
theorem analysis_node_crashes_on_missing_path :
    imageAnalysisNode (fun _ => none) (.ok []) PipelineState.empty =
      .error PyErr.valueError := by
  rfl

/-- Claim C9 amended: every node writes only its designated state field
and never mutates the run inputs or another stage's output, and each
downstream node applied to a state with missing upstream fields
substitutes defaults and completes; the analysis stage substitutes the
empty image path but then aborts in validation rather than completing. -/
theorem state_single_writer_frame :
    (∀ (decode : List Char → Option PILImage)
       (resp : Except (List Char) (List Char)) (s s1 : PipelineState),
      imageAnalysisNode decode resp s = .ok s1 →
      s1.image_path = s.image_path ∧ s1.clinical_query = s.clinical_query ∧
      s1.retrieved_context = s.retrieved_context ∧ s1.reasoning = s.reasoning ∧
      s1.critique = s.critique ∧ s1.final_report = s.final_report) ∧
    (∀ (resp : Except (List Char) (List Char)) (s : PipelineState),
      reasoningNode resp s =
        { s with reasoning := some (stageText resp) } ∧
      critiqueNode resp s =
        { s with critique := some (stageText resp) } ∧
      reportWriterNode resp s =
        { s with final_report := some (stageText resp) }) ∧
    (∀ resp : Except (List Char) (List Char),
      reasoningNode resp PipelineState.empty =
        { PipelineState.empty with reasoning := some (stageText resp) } ∧
      critiqueNode resp PipelineState.empty =
        { PipelineState.empty with critique := some (stageText resp) } ∧
      reportWriterNode resp PipelineState.empty =
        { PipelineState.empty with final_report := some (stageText resp) }) := by
  refine ⟨fun decode resp s s1 h => ?_, fun resp s => ⟨rfl, rfl, rfl⟩,
    fun resp => ⟨rfl, rfl, rfl⟩⟩
  unfold imageAnalysisNode at h
  cases ha : analyzeImage (decode (s.image_path.getD [])) resp with
  | error e => simp [ha] at h
  | ok result =>
    cases hg : getStructuredFindings result with
    | error e => simp [ha, hg] at h
    | ok findings =>
      simp [ha, hg] at h
      subst h
      exact ⟨rfl, rfl, rfl, rfl, rfl, rfl⟩

/-- Claim C9 amended witness: the frame property at a concrete completed
analysis stage. -/
theorem state_single_writer_frame_witness :
    (initState "scan.jpg".data [] []).image_path = some "scan.jpg".data ∧
    ({ initState "scan.jpg".data [] [] with
        image_findings := some (.ok witnessFindings) } : PipelineState).image_path =
      some "scan.jpg".data :=
  ⟨rfl,
    ((state_single_writer_frame.1 (fun _ => some ⟨200, 200, ImgFormat.jpeg⟩)
      (.ok []) (initState "scan.jpg".data [] [])
      { initState "scan.jpg".data [] [] with
        image_findings := some (.ok witnessFindings) } rfl).1).trans rfl⟩

/-- Claim C10 witness: a concrete successful analysis result whose
structured findings carry the empty key-findings list. -/
theorem abnormal_section_empty_no_key_findings_witness :
    getStructuredFindings
        (.success (parseAnalysisResponse []) (extractConfidenceScore [])) =
      .ok (.ok witnessFindings) ∧
    witnessFindings.key_findings = [] :=
  ⟨rfl,
    abnormal_section_empty_no_key_findings.2 (some ⟨200, 200, ImgFormat.jpeg⟩)
      (.ok []) (.success (parseAnalysisResponse []) (extractConfidenceScore []))
      witnessFindings rfl rfl⟩

end MediLens
